import Mathlib

/-!
Verification model of `src/scripts/auto_fix.js`, an automated CI-failure
remediation script.  The script is shallowly embedded: every external
effect (environment variables, the HTTP fetch, the JSON parser of the JS
runtime, git operations, file writes, the GitHub API) is represented by an
explicit environment record describing its outcome, and the script body is
translated into pure Lean functions over those environments.
-/

/-- JavaScript values obtained from `JSON.parse`, as used by the script.
JSON numbers are modelled as integers (no claim depends on fractional
values). -/
inductive JsVal where
  | null : JsVal
  | bool (b : Bool) : JsVal
  | num (n : Int) : JsVal
  | str (s : String) : JsVal
  | arr (xs : List JsVal) : JsVal
  | obj (fields : List (String × JsVal)) : JsVal

namespace JsVal

/-- Property access `v?.name` in JS: defined (`some`) only on objects that
carry the key; every other access yields `undefined` (`none`). -/
def getField : JsVal → String → Option JsVal
  | .obj fields, k =>
      match fields.find? (fun p => p.1 = k) with
      | some p => some p.2
      | none => none
  | _, _ => none

/-- Index access `v?.[i]`: array element when in range, single-character
string for a string, numeric-string key lookup for an object. -/
def getIndex : JsVal → Nat → Option JsVal
  | .arr xs, i => xs.get? i
  | .str s, i =>
      (match s.toList.get? i with
       | some c => some (.str (String.singleton c))
       | none => none)
  | .obj fields, i => getField (.obj fields) (toString i)
  | _, _ => none

/-- JS truthiness of a JSON value (`NaN` cannot arise from our integers). -/
def jsTruthy : JsVal → Bool
  | .null => false
  | .bool b => b
  | .num n => n ≠ 0
  | .str s => s ≠ ""
  | .arr _ => true
  | .obj _ => true

mutual

/-- JS `String(v)` coercion for JSON values: `Array.prototype.toString`
joins elements with commas, rendering `null` elements as empty strings;
plain objects render as `[object Object]`. -/
def jsToString : JsVal → String
  | .null => "null"
  | .bool b => if b then "true" else "false"
  | .num n => toString n
  | .str s => s
  | .arr xs => jsArrToString xs
  | .obj _ => "[object Object]"

/-- Comma join used by `Array.prototype.toString`. -/
def jsArrToString : List JsVal → String
  | [] => ""
  | [x] => jsElemToString x
  | x :: y :: xs => jsElemToString x ++ "," ++ jsArrToString (y :: xs)

/-- An element inside an array join: `null` renders as the empty string. -/
def jsElemToString : JsVal → String
  | .null => ""
  | .bool b => if b then "true" else "false"
  | .num n => toString n
  | .str s => s
  | .arr xs => jsArrToString xs
  | .obj _ => "[object Object]"

end

end JsVal

/-- Truthiness of an environment-variable read: `undefined` (unset) and the
empty string are falsy. -/
def envTruthy : Option String → Bool
  | none => false
  | some s => s ≠ ""

/-- The fixed heuristic result returned when `OPENAI_API_KEY` is not set
(lines 11-17 of `auto_fix.js`). -/
def heuristicResult : JsVal :=
  .obj [
    ("RootCauseExplanation", .str "Yerel: OPENAI_API_KEY tanımlı değil. Basit sezgisel analiz: Hata test çıktısındaki son assertion mesajına göre kök neden sınıflandırılmalı."),
    ("Patch", .str ""),
    ("TestSuggestions", .str "Hata veren fonksiyon için başarısız senaryoya yönelik ek test(ler)."),
    ("RiskAssessment", .str "Düşük")]

/-- The fallback result returned when the extracted model content is not
parseable JSON (lines 49-54). -/
def notJsonResult : JsVal :=
  .obj [
    ("RootCauseExplanation", .str "Model yanıtı JSON değil, manuel yedek açıklama."),
    ("Patch", .str ""),
    ("TestSuggestions", .str "Model JSON dönmedi; test önerileri üretilemedi."),
    ("RiskAssessment", .str "Orta")]

/-- The fallback result returned when the fetch (or reading its body)
throws, including abort on timeout (lines 57-62); `err` is `String(err)`. -/
def requestErrorResult (err : String) : JsVal :=
  .obj [
    ("RootCauseExplanation", .str ("Model isteği hata verdi: " ++ err)),
    ("Patch", .str ""),
    ("TestSuggestions", .str "Yerel analiz devreye alınmalı."),
    ("RiskAssessment", .str "Bilinmiyor")]

/-- The timeout installed around the fetch: `setTimeout(() => controller.abort(), 240_000)`
(line 22). -/
def analyzeTimeoutMs : Nat := 240000

/-- Outcome of the `fetch` + `res.json()` pair, supplied by the
environment.  `throws` covers a transport error and the abort fired by the
timeout (both reject the `fetch` promise and are caught by the same
`catch`); `bodyNotJson` is `res.json()` rejecting; `ok` carries the parsed
response body. -/
inductive FetchResult where
  | throws (err : String) : FetchResult
  | bodyNotJson (err : String) : FetchResult
  | ok (data : JsVal) : FetchResult

/-- Environment of one `analyzeWithGPT` invocation: the credential read,
the outcome of the network interaction, and an oracle for the JS runtime's
`JSON.parse(content)` (applied after `String` coercion of `content`;
`none` models a thrown `SyntaxError`). -/
structure AnalyzeEnv where
  openaiKey : Option String
  fetchResult : FetchResult
  parseContent : JsVal → Option JsVal

/-- `data?.choices?.[0]?.message?.content || ''` (line 42). -/
def extractContent (data : JsVal) : JsVal :=
  let c := ((((data.getField "choices").bind (fun v => v.getIndex 0)).bind
      (fun v => v.getField "message")).bind (fun v => v.getField "content"))
  match c with
  | some v => if v.jsTruthy then v else .str ""
  | none => .str ""

/-- Result of `analyzeWithGPT` together with whether a network call was
issued and, when one was, the prompt it carried. -/
structure AnalyzeOutcome where
  result : JsVal
  networkCalled : Bool
  promptSent : Option String

/-- The prompt built from the inputs (line 24). -/
def promptText (testLog gitDiff : String) : String :=
  "CI testi başarısız. JSON çıktısı ver. Alanlar: RootCauseExplanation, Patch (unified diff), TestSuggestions, RiskAssessment.\n\n--- TEST LOG ---\n"
    ++ testLog ++ "\n\n--- GIT DIFF (origin/main) ---\n" ++ gitDiff

/-- Shallow embedding of `analyzeWithGPT` (lines 8-66).  The JS function
catches every failure of the remote interaction (the timeout abort, a
transport error, `res.json()` rejecting, `JSON.parse` throwing), so the
model is a total function: no exception escapes to the caller. -/
def analyzeWithGPT (env : AnalyzeEnv) (testLog gitDiff : String) : AnalyzeOutcome :=
  if !envTruthy env.openaiKey then
    { result := heuristicResult, networkCalled := false, promptSent := none }
  else
    let prompt := promptText testLog gitDiff
    match env.fetchResult with
    | .throws err =>
        { result := requestErrorResult err, networkCalled := true, promptSent := some prompt }
    | .bodyNotJson err =>
        { result := requestErrorResult err, networkCalled := true, promptSent := some prompt }
    | .ok data =>
        match env.parseContent (extractContent data) with
        | some parsed => { result := parsed, networkCalled := true, promptSent := some prompt }
        | none => { result := notJsonResult, networkCalled := true, promptSent := some prompt }

/-- A result carries all four `AnalysisResult` fields. -/
def hasAllFields (v : JsVal) : Bool :=
  (v.getField "RootCauseExplanation").isSome &&
  (v.getField "Patch").isSome &&
  (v.getField "TestSuggestions").isSome &&
  (v.getField "RiskAssessment").isSome

/-- Model of the JS `String.prototype.trim` runtime primitive: removes
leading and trailing whitespace (space, tab, carriage return, newline; the
additional Unicode space characters JS also strips do not occur in the
texts this program handles). -/
def jsTrim (s : String) : String :=
  ⟨((s.data.dropWhile Char.isWhitespace).reverse.dropWhile Char.isWhitespace).reverse⟩

/-- Split a character list at the line terminators `\n` and `\r`, the
positions after which `^` matches under the JS regex `m` flag. -/
def splitAtTerminators (cs : List Char) : List (List Char) :=
  match cs with
  | [] => [[]]
  | c :: rest =>
      let r := splitAtTerminators rest
      if c = '\n' || c = '\r' then [] :: r
      else
        match r with
        | [] => [[c]]
        | l :: ls => (c :: l) :: ls

/-- `isLikelyUnifiedDiff` (lines 73-75) on its string argument:
`/^(diff --git|--- |\+\+\+ )/m.test(text)` holds when some line of the
text starts with one of the three markers.  With the `m` flag, `^`
matches at the start of the string and right after a line terminator. -/
def isLikelyUnifiedDiff (text : String) : Bool :=
  (splitAtTerminators text.data).any
    (fun l => List.isPrefixOf "diff --git".data l ||
              List.isPrefixOf "--- ".data l ||
              List.isPrefixOf "+++ ".data l)

/-- The call `isLikelyUnifiedDiff(analysis?.Patch)` (line 152): inside the
function, `text || ''` replaces a falsy or absent argument with the empty
string, and `RegExp.test` coerces a non-string argument with `String`. -/
def isLikelyUnifiedDiffJ (v : Option JsVal) : Bool :=
  match v with
  | none => isLikelyUnifiedDiff ""
  | some x => if x.jsTruthy then isLikelyUnifiedDiff x.jsToString else isLikelyUnifiedDiff ""

/-- Lines 110-114: the guard
`analysis?.Patch && typeof analysis.Patch === 'string' && analysis.Patch.trim()`
and, when it holds, the exact contents written to `suggested_patch.diff`.
A falsy field (absent, `null`, `0`, `false`, `""`), a non-string field, or
a whitespace-only string all leave the patch unwritten. -/
def patchToWrite (analysis : JsVal) : Option String :=
  match analysis.getField "Patch" with
  | some (.str s) => if s ≠ "" && jsTrim s ≠ "" then some s else none
  | _ => none

/-- Whether the `Patch` field is present and a string (the
`typeof analysis.Patch === 'string'` test). -/
def patchFieldIsString (analysis : JsVal) : Bool :=
  match analysis.getField "Patch" with
  | some (.str _) => true
  | _ => false

/-- `analysis?.name || dflt` as it appears in the PR body array
(lines 149, 155, 158). -/
def prField (analysis : JsVal) (name dflt : String) : JsVal :=
  match analysis.getField name with
  | some v => if v.jsTruthy then v else .str dflt
  | none => .str dflt

/-- The fixed text referring the reader to the patch artifact (line 152). -/
def patchRefText : String := "Aşağıdaki diff dosyasına bakınız: `suggested_patch.diff`"

/-- The fixed text used when the patch does not look like a diff (line 152). -/
def patchMissingText : String := "Üretilemedi veya geçersiz."

/-- The patch section entry of the PR body (line 152): one of two fixed
strings; the `Patch` text itself is never inserted. -/
def patchLine (analysis : JsVal) : String :=
  if isLikelyUnifiedDiffJ (analysis.getField "Patch") then patchRefText
  else patchMissingText

/-- The array joined into `prBody` (lines 145-159); `Array.prototype.join`
coerces the non-string entries (the `||`-defaulted fields) with `String`. -/
def buildPrBodyLines (analysis : JsVal) : List String :=
  [ "Bu PR, CI hatası için GPT tarafından önerilen çıktıları içerir.",
    "",
    "## Kök neden",
    JsVal.jsToString (prField analysis "RootCauseExplanation" "Belirlenemedi"),
    "",
    "## Önerilen Patch",
    patchLine analysis,
    "",
    "## Test Önerileri",
    JsVal.jsToString (prField analysis "TestSuggestions" "Belirtilmedi"),
    "",
    "## Risk Değerlendirmesi",
    JsVal.jsToString (prField analysis "RiskAssessment" "Belirtilmedi") ]

/-- `prBody` (line 159). -/
def buildPrBody (analysis : JsVal) : String :=
  String.intercalate "\n" (buildPrBodyLines analysis)

/-- The PR title (line 144). -/
def prTitleText : String := "AutoFixBot tarafından oluşturulan otomatik düzeltme"

/-- Environment of one `run()` invocation: the outcome of every external
operation the script performs, in program order.  `remoteMatch` is the JS
regex engine applied to the remote URL (the match of
`/[:\/]([^\/]+)\/([^\/.]+)(?:\.git)?$/`, yielding owner and repo). -/
structure RunEnv where
  setNameFails : Bool
  setEmailFails : Bool
  diffExec : Option String
  logFileContents : Option String
  openaiKey : Option String
  fetchResult : FetchResult
  parseContent : JsVal → Option JsVal
  revparseShortHead : Except String String
  checkoutLocalBranchFails : Bool
  checkoutFails : Bool
  writeAnalysisFails : Bool
  writePatchFails : Bool
  addResult : Except String Unit
  commitResult : Except String Unit
  pushResult : Except String Unit
  githubToken : Option String
  ghToken : Option String
  remoteGetUrl : Option String
  remoteMatch : String → Option (String × String)
  prCreateResult : Except String String

/-- Observable outcome of one `run()` invocation.  `exitCode` is the
process exit status: `1` when the promise returned by `run()` rejects
(caught by `run().catch` at lines 176-179, which calls `process.exit(1)`),
`0` otherwise. -/
structure RunOutcome where
  exitCode : Nat
  networkCalled : Bool
  analysis : JsVal
  branchName : Option String
  analysisFileWritten : Bool
  patchFileContents : Option String
  stagedFiles : List String
  committed : Bool
  pushArgs : Option (List String)
  pushWarned : Bool
  prAttempted : Bool
  prBody : Option String
  prWarned : Bool

/-- The analysis computed by `run()` (lines 81-95): a missing log file
yields an empty `testLog`, a failing `git diff` an empty `gitDiff`. -/
def runAnalysis (env : RunEnv) : AnalyzeOutcome :=
  analyzeWithGPT
    { openaiKey := env.openaiKey, fetchResult := env.fetchResult,
      parseContent := env.parseContent }
    (env.logFileContents.getD "") (env.diffExec.getD "")

/-- Outcome of a run that rejected before the stage in question: exit
status 1, nothing written, committed or published. -/
def baseOutcome (a : AnalyzeOutcome) : RunOutcome :=
  { exitCode := 1, networkCalled := a.networkCalled, analysis := a.result,
    branchName := none, analysisFileWritten := false, patchFileContents := none,
    stagedFiles := [], committed := false, pushArgs := none, pushWarned := false,
    prAttempted := false, prBody := none, prWarned := false }

/-- The PR body sent to `octokit.pulls.create`, when the call is reached:
`none` when no token is set (lines 127-132) or the remote URL does not
match the owner/repo pattern (lines 133-139), `some` of the constructed
body otherwise (lines 144-169). -/
def prBodyIfCreated (env : RunEnv) (a : AnalyzeOutcome) : Option String :=
  let token := if envTruthy env.githubToken then env.githubToken else env.ghToken
  if !envTruthy token then none
  else
    match env.remoteMatch (jsTrim (env.remoteGetUrl.getD "")) with
    | none => none
    | some _ => some (buildPrBody a.result)

/-- Lines 116-173, from `git.add` on, entered with the artifact files
already written.  `git.add` and `git.commit` are not wrapped in any
`try`, so either failure rejects `run()` (exit 1).  The push is wrapped
(lines 120-124): its failure is only warned about.  PR creation is skipped
without error when no token is set or the remote URL does not match, and
its own failure is caught and warned about (lines 171-173). -/
def afterArtifacts (env : RunEnv) (a : AnalyzeOutcome) (branchName : String)
    (patch : Option String) : RunOutcome :=
  let b0 := { baseOutcome a with
              branchName := some branchName, analysisFileWritten := true,
              patchFileContents := patch }
  match env.addResult with
  | .error _ => b0
  | .ok _ =>
      let staged := "analysis.json" ::
        (match patch with | some _ => ["suggested_patch.diff"] | none => [])
      let b1 := { b0 with stagedFiles := staged }
      match env.commitResult with
      | .error _ => b1
      | .ok _ =>
          let pr := prBodyIfCreated env a
          { b1 with
            exitCode := 0, committed := true,
            pushArgs := some ["--set-upstream", "origin", branchName],
            pushWarned := (match env.pushResult with
                           | .error _ => true
                           | .ok _ => false),
            prAttempted := pr.isSome, prBody := pr,
            prWarned := pr.isSome && (match env.prCreateResult with
                                      | .error _ => true
                                      | .ok _ => false) }

/-- Shallow embedding of `run()` (lines 77-174) composed with the
`run().catch` handler (lines 176-179).  `ensureGitIdentity` wraps each
`addConfig` in its own `try {} catch {}` (lines 69-70), so
`setNameFails`/`setEmailFails` cannot influence anything that follows.
The `revparse` call (line 98) is unprotected: its rejection propagates
and the process exits with status 1.  Branch checkout failures
(lines 100-104) are swallowed by the `catch` arms.  The two
`fs.writeFileSync` calls (lines 108, 113) are unprotected: a throw
propagates to `run().catch`. -/
def runModel (env : RunEnv) : RunOutcome :=
  match env.revparseShortHead with
  | .error _ => baseOutcome (runAnalysis env)
  | .ok h =>
      if env.writeAnalysisFails then
        { baseOutcome (runAnalysis env) with branchName := some ("auto-fix/" ++ jsTrim h) }
      else
        match patchToWrite (runAnalysis env).result with
        | some s =>
            if env.writePatchFails then
              { baseOutcome (runAnalysis env) with
                branchName := some ("auto-fix/" ++ jsTrim h), analysisFileWritten := true }
            else afterArtifacts env (runAnalysis env) ("auto-fix/" ++ jsTrim h) (some s)
        | none => afterArtifacts env (runAnalysis env) ("auto-fix/" ++ jsTrim h) none

/-- The stages whose failure rejects the `run()` promise and therefore
exits with status 1: short-hash resolution (line 98), the unprotected
artifact writes (lines 108, 113), `git.add` (line 116) and `git.commit`
(line 117).  The patch write only happens when a patch is due. -/
def fatalFreeRun (env : RunEnv) : Bool :=
  (match env.revparseShortHead with | .ok _ => true | .error _ => false) &&
  !env.writeAnalysisFails &&
  ((patchToWrite (runAnalysis env).result).isNone || !env.writePatchFails) &&
  (match env.addResult with | .ok _ => true | .error _ => false) &&
  (match env.commitResult with | .ok _ => true | .error _ => false)

/-- An all-success run environment with no credentials configured, used to
instantiate the universally quantified theorems below. -/
def okRunEnv : RunEnv :=
  { setNameFails := false, setEmailFails := false,
    diffExec := some "", logFileContents := none,
    openaiKey := none, fetchResult := .ok .null, parseContent := fun _ => none,
    revparseShortHead := .ok "abc1234\n",
    checkoutLocalBranchFails := false, checkoutFails := false,
    writeAnalysisFails := false, writePatchFails := false,
    addResult := .ok (), commitResult := .ok (), pushResult := .ok (),
    githubToken := none, ghToken := none,
    remoteGetUrl := some "https://github.com/talhabektas/test.git",
    remoteMatch := fun _ => some ("talhabektas", "test"),
    prCreateResult := .ok "https://github.com/talhabektas/test/pull/1" }

theorem hasAllFields_heuristic : hasAllFields heuristicResult = true := by decide

theorem hasAllFields_notJson : hasAllFields notJsonResult = true := by decide

theorem hasAllFields_requestError (err : String) :
    hasAllFields (requestErrorResult err) = true := rfl

theorem patchToWrite_requestError (err : String) :
    patchToWrite (requestErrorResult err) = none := rfl

/-- C1: for every `testLog` and `gitDiff` and every failing outcome of the
remote call — the fetch rejecting (transport error, timeout abort,
cancellation), the response body being unreadable, or the extracted
content not parsing as JSON — `analyzeWithGPT` returns normally (the model
is a total function, mirroring the `try`/`catch` that swallows every
rejection) and its result carries all four `AnalysisResult` fields. -/
theorem analyzeWithGPT_always_wellformed (env : AnalyzeEnv) (testLog gitDiff : String)
    (h : match env.fetchResult with
         | .ok data => env.parseContent (extractContent data) = none
         | _ => True) :
    hasAllFields (analyzeWithGPT env testLog gitDiff).result = true := by
  by_cases hk : envTruthy env.openaiKey
  · cases hf : env.fetchResult with
    | throws err =>
        simp [analyzeWithGPT, hk, hf, hasAllFields_requestError]
    | bodyNotJson err =>
        simp [analyzeWithGPT, hk, hf, hasAllFields_requestError]
    | ok data =>
        rw [hf] at h
        simp [analyzeWithGPT, hk, hf, h, hasAllFields_notJson]
  · simp [analyzeWithGPT, hk, hasAllFields_heuristic]

/-- Witness for C1 at a concrete aborted request. -/
theorem analyzeWithGPT_always_wellformed_witness :
    hasAllFields (analyzeWithGPT
      { openaiKey := some "sk-test",
        fetchResult := .throws "AbortError: This operation was aborted",
        parseContent := fun _ => none } "log" "diff").result = true :=
  analyzeWithGPT_always_wellformed _ "log" "diff" trivial

/-- C2: with no `OPENAI_API_KEY` configured (unset or empty, both falsy),
`analyzeWithGPT` returns the fixed heuristic result — whose
`RootCauseExplanation` is the fixed text announcing local heuristic
analysis ("Basit sezgisel analiz", Turkish for "simple heuristic
analysis") and whose `RiskAssessment` is the low-severity label "Düşük"
(Turkish for "Low") — and no network call is attempted. -/
theorem analyzeWithGPT_heuristic_mode (env : AnalyzeEnv) (testLog gitDiff : String)
    (h : envTruthy env.openaiKey = false) :
    (analyzeWithGPT env testLog gitDiff).result = heuristicResult ∧
    (analyzeWithGPT env testLog gitDiff).networkCalled = false ∧
    (analyzeWithGPT env testLog gitDiff).promptSent = none ∧
    heuristicResult.getField "RiskAssessment" = some (.str "Düşük") ∧
    heuristicResult.getField "RootCauseExplanation" = some (.str
      "Yerel: OPENAI_API_KEY tanımlı değil. Basit sezgisel analiz: Hata test çıktısındaki son assertion mesajına göre kök neden sınıflandırılmalı.") := by
  refine ⟨?_, ?_, ?_, rfl, rfl⟩ <;> simp [analyzeWithGPT, h]

/-- Witness for C2 with the key unset. -/
theorem analyzeWithGPT_heuristic_mode_witness :
    (analyzeWithGPT { openaiKey := none, fetchResult := .ok .null,
                      parseContent := fun _ => none } "" "").networkCalled = false ∧
    (analyzeWithGPT { openaiKey := none, fetchResult := .ok .null,
                      parseContent := fun _ => none } "" "").result = heuristicResult := by
  have h := analyzeWithGPT_heuristic_mode
    { openaiKey := none, fetchResult := .ok .null, parseContent := fun _ => none } "" "" rfl
  exact ⟨h.2.1, h.1⟩

/-- C6: when the extracted response content parses as JSON, the parsed
value is returned as-is — for every value `v`, including values missing
some or all of the four `AnalysisResult` fields or of a non-object type;
no field validation is performed on this branch. -/
theorem analyzeWithGPT_passthrough (env : AnalyzeEnv) (testLog gitDiff : String)
    (data v : JsVal) (hk : envTruthy env.openaiKey = true)
    (hf : env.fetchResult = .ok data)
    (hp : env.parseContent (extractContent data) = some v) :
    (analyzeWithGPT env testLog gitDiff).result = v := by
  simp [analyzeWithGPT, hk, hf, hp]

/-- Witness for C6: a parsed content of `5` — valid JSON with none of the
four fields — is passed through verbatim. -/
theorem analyzeWithGPT_passthrough_witness :
    (analyzeWithGPT { openaiKey := some "sk-test", fetchResult := .ok .null,
                      parseContent := fun _ => some (.num 5) } "" "").result = .num 5 :=
  analyzeWithGPT_passthrough _ "" "" .null (.num 5) rfl rfl rfl

theorem runModel_reached (env : RunEnv) (hash : String)
    (hrev : env.revparseShortHead = .ok hash)
    (hwa : env.writeAnalysisFails = false)
    (hwp : env.writePatchFails = false) :
    runModel env =
      afterArtifacts env (runAnalysis env) ("auto-fix/" ++ jsTrim hash)
        (patchToWrite (runAnalysis env).result) := by
  unfold runModel
  rw [hrev]
  cases hp : patchToWrite (runAnalysis env).result with
  | some s => simp [hwa, hwp]
  | none => simp [hwa]

theorem afterArtifacts_ok_fields (env : RunEnv) (a : AnalyzeOutcome)
    (bn : String) (p : Option String)
    (hadd : env.addResult = .ok ())
    (hcommit : env.commitResult = .ok ()) :
    afterArtifacts env a bn p =
      { exitCode := 0, networkCalled := a.networkCalled, analysis := a.result,
        branchName := some bn, analysisFileWritten := true,
        patchFileContents := p,
        stagedFiles := "analysis.json" ::
          (match p with | some _ => ["suggested_patch.diff"] | none => []),
        committed := true,
        pushArgs := some ["--set-upstream", "origin", bn],
        pushWarned := (match env.pushResult with | .error _ => true | .ok _ => false),
        prAttempted := (prBodyIfCreated env a).isSome,
        prBody := prBodyIfCreated env a,
        prWarned := (prBodyIfCreated env a).isSome &&
          (match env.prCreateResult with | .error _ => true | .ok _ => false) } := by
  unfold afterArtifacts
  rw [hadd, hcommit]
  simp [baseOutcome]

theorem afterArtifacts_exitCode (env : RunEnv) (a : AnalyzeOutcome)
    (bn : String) (p : Option String) :
    (afterArtifacts env a bn p).exitCode =
      (match env.addResult, env.commitResult with
       | .ok _, .ok _ => 0
       | _, _ => 1) := by
  unfold afterArtifacts
  cases env.addResult <;> cases env.commitResult <;> simp [baseOutcome]

theorem runModel_committed_exit (env : RunEnv) :
    (runModel env).committed = true → (runModel env).exitCode = 0 := by
  unfold runModel afterArtifacts
  cases env.revparseShortHead <;>
    cases hwa : env.writeAnalysisFails <;>
      cases hp : patchToWrite (runAnalysis env).result <;>
        cases hwp : env.writePatchFails <;>
          cases env.addResult <;>
            cases env.commitResult <;>
              simp [baseOutcome]

theorem runModel_prAttempted_eq (env : RunEnv) :
    (runModel env).prAttempted =
      ((runModel env).committed && (prBodyIfCreated env (runAnalysis env)).isSome) := by
  unfold runModel afterArtifacts
  cases env.revparseShortHead <;>
    cases hwa : env.writeAnalysisFails <;>
      cases hp : patchToWrite (runAnalysis env).result <;>
        cases hwp : env.writePatchFails <;>
          cases env.addResult <;>
            cases env.commitResult <;>
              simp [baseOutcome]

/-- C3: the remote call is bounded by the 240000 ms deadline — exactly 4
minutes, under the 5-minute outer CI envelope — after which the abort
controller cancels the in-flight request; the rejected fetch (modelled by
`FetchResult.throws`, which covers the `AbortError`) produces the fallback
result embedding the error description with `RiskAssessment`
"Bilinmiyor" (Turkish for "Unknown"), and the remaining pipeline stages
still execute: the run goes on to commit and exits with status 0. -/
theorem analyzeWithGPT_timeout_fallback (env : RunEnv) (err hash : String)
    (hk : envTruthy env.openaiKey = true)
    (hf : env.fetchResult = .throws err)
    (hrev : env.revparseShortHead = .ok hash)
    (hwa : env.writeAnalysisFails = false)
    (hwp : env.writePatchFails = false)
    (hadd : env.addResult = .ok ())
    (hcommit : env.commitResult = .ok ()) :
    analyzeTimeoutMs = 4 * 60 * 1000 ∧
    analyzeTimeoutMs < 5 * 60 * 1000 ∧
    (runAnalysis env).result = requestErrorResult err ∧
    (requestErrorResult err).getField "RiskAssessment" = some (.str "Bilinmiyor") ∧
    (requestErrorResult err).getField "RootCauseExplanation" =
      some (.str ("Model isteği hata verdi: " ++ err)) ∧
    (runModel env).committed = true ∧
    (runModel env).exitCode = 0 := by
  have ha : (runAnalysis env).result = requestErrorResult err := by
    simp [runAnalysis, analyzeWithGPT, hk, hf]
  have hrm := runModel_reached env hash hrev hwa hwp
  have haf := afterArtifacts_ok_fields env (runAnalysis env)
      ("auto-fix/" ++ jsTrim hash) (patchToWrite (runAnalysis env).result) hadd hcommit
  refine ⟨by decide, by decide, ha, rfl, rfl, ?_, ?_⟩ <;> rw [hrm, haf]

/-- Witness for C3: a concrete aborted request inside an otherwise
successful run. -/
theorem analyzeWithGPT_timeout_fallback_witness :
    (runModel { okRunEnv with
        openaiKey := some "sk-test",
        fetchResult := .throws "AbortError: This operation was aborted" }).exitCode = 0 ∧
    (runAnalysis { okRunEnv with
        openaiKey := some "sk-test",
        fetchResult := .throws "AbortError: This operation was aborted" }).result =
      requestErrorResult "AbortError: This operation was aborted" := by
  have h := analyzeWithGPT_timeout_fallback
    { okRunEnv with
      openaiKey := some "sk-test",
      fetchResult := .throws "AbortError: This operation was aborted" }
    "AbortError: This operation was aborted" "abc1234\n"
    rfl rfl rfl rfl rfl rfl rfl
  exact ⟨h.2.2.2.2.2.2, h.2.2.1⟩

/-- Environment in which only the branch-creation stage fails: the
`git rev-parse --short HEAD` that derives the branch name rejects, while
identity setup, diff capture, the artifact writes, staging, commit, push
and PR creation would all succeed and no credentials are missing. -/
def revparseFailEnv : RunEnv :=
  { okRunEnv with
    logFileContents := some "1 test failed",
    revparseShortHead := .error "fatal: ambiguous argument HEAD" }

/-- C4 counterexample: the claim says a branch-creation failure leaves a
zero exit status and that no stage other than commit aborts the run; in
`revparseFailEnv` the only failing stage is branch creation (resolving the
short hash at line 98, which no `try` protects), yet the process exits
with status 1 and no commit was even attempted. -/
theorem run_branch_stage_abort_cex :
    (runModel revparseFailEnv).exitCode = 1 ∧
    (runModel revparseFailEnv).committed = false ∧
    revparseFailEnv.addResult = .ok () ∧
    revparseFailEnv.commitResult = .ok () := by
  refine ⟨by decide, by decide, rfl, rfl⟩

/-- C4 amended: the run exits with status 0 exactly when every
promise-rejecting stage succeeds — short-hash resolution (branch-name
derivation), the artifact writes, staging (`git.add`) and the commit; a
failure at any of those exits with status 1, while failures at identity
setup, diff capture, branch checkout, push, PR creation and absent
credentials never change the exit status. -/
theorem run_exit_status_eq (env : RunEnv) :
    (runModel env).exitCode = if fatalFreeRun env then 0 else 1 := by
  unfold runModel fatalFreeRun
  cases env.revparseShortHead <;>
    cases hwa : env.writeAnalysisFails <;>
      cases hp : patchToWrite (runAnalysis env).result <;>
        cases hwp : env.writePatchFails <;>
          cases hadd : env.addResult <;>
            cases hcommit : env.commitResult <;>
              simp [afterArtifacts_exitCode, baseOutcome, hadd, hcommit]

theorem jsTrim_empty : jsTrim "" = "" := by decide

/-- C5: in a run that reaches the artifact-writing stage, when the
analysis result's `Patch` field is a string that is non-empty after
trimming, `suggested_patch.diff` is written containing exactly that
string and is staged for the commit; when the string is empty or
whitespace-only, no patch file is written and none is staged. -/
theorem run_patch_artifact_iff (env : RunEnv) (hash s : String)
    (hrev : env.revparseShortHead = .ok hash)
    (hwa : env.writeAnalysisFails = false)
    (hwp : env.writePatchFails = false)
    (hadd : env.addResult = .ok ())
    (hcommit : env.commitResult = .ok ())
    (hpatch : (runAnalysis env).result.getField "Patch" = some (.str s)) :
    (jsTrim s ≠ "" →
      (runModel env).patchFileContents = some s ∧
      "suggested_patch.diff" ∈ (runModel env).stagedFiles) ∧
    (jsTrim s = "" →
      (runModel env).patchFileContents = none ∧
      "suggested_patch.diff" ∉ (runModel env).stagedFiles) := by
  have hrm := runModel_reached env hash hrev hwa hwp
  have haf := afterArtifacts_ok_fields env (runAnalysis env)
      ("auto-fix/" ++ jsTrim hash) (patchToWrite (runAnalysis env).result) hadd hcommit
  rw [hrm, haf]
  have hpw : patchToWrite (runAnalysis env).result =
      if s ≠ "" && jsTrim s ≠ "" then some s else none := by
    unfold patchToWrite
    rw [hpatch]
  constructor
  · intro hne
    have hs : s ≠ "" := by
      intro h
      rw [h, jsTrim_empty] at hne
      exact hne rfl
    rw [hpw]
    simp [hs, hne]
  · intro heq
    rw [hpw]
    simp [heq]

/-- Witness for C5 at a concrete passed-through analysis carrying a
unified diff as its `Patch`. -/
theorem run_patch_artifact_iff_witness :
    (runModel { okRunEnv with
        openaiKey := some "sk-test",
        parseContent := fun _ =>
          some (.obj [("Patch", .str "--- a/f.js\n+++ b/f.js\n")]) }).patchFileContents =
      some "--- a/f.js\n+++ b/f.js\n" ∧
    "suggested_patch.diff" ∈ (runModel { okRunEnv with
        openaiKey := some "sk-test",
        parseContent := fun _ =>
          some (.obj [("Patch", .str "--- a/f.js\n+++ b/f.js\n")]) }).stagedFiles := by
  have h := run_patch_artifact_iff
    { okRunEnv with
      openaiKey := some "sk-test",
      parseContent := fun _ =>
        some (.obj [("Patch", .str "--- a/f.js\n+++ b/f.js\n")]) }
    "abc1234\n" "--- a/f.js\n+++ b/f.js\n"
    rfl rfl rfl rfl rfl rfl
  exact h.1 (by decide)

/-- When neither `GITHUB_TOKEN` nor `GH_TOKEN` is a non-empty string, the
token computed by `GITHUB_TOKEN || GH_TOKEN` is falsy and the PR branch is
never entered. -/
theorem prBodyIfCreated_no_token (env : RunEnv) (a : AnalyzeOutcome)
    (hg : envTruthy env.githubToken = false)
    (hgh : envTruthy env.ghToken = false) :
    prBodyIfCreated env a = none := by
  unfold prBodyIfCreated
  simp [hg, hgh]

/-- C7: with the publishing token absent (`GITHUB_TOKEN` and `GH_TOKEN`
both unset or empty), no pull-request creation call is attempted on any
path, and whenever the commit succeeded the process exits with status 0. -/
theorem run_no_token_skips_pr (env : RunEnv)
    (hg : envTruthy env.githubToken = false)
    (hgh : envTruthy env.ghToken = false) :
    (runModel env).prAttempted = false ∧
    ((runModel env).committed = true → (runModel env).exitCode = 0) := by
  refine ⟨?_, runModel_committed_exit env⟩
  rw [runModel_prAttempted_eq, prBodyIfCreated_no_token env _ hg hgh]
  simp

/-- Witness for C7 in an all-success run without credentials. -/
theorem run_no_token_skips_pr_witness :
    (runModel okRunEnv).prAttempted = false ∧
    (runModel okRunEnv).exitCode = 0 := by
  have h := run_no_token_skips_pr okRunEnv rfl rfl
  exact ⟨h.1, h.2 (by decide)⟩

/-- C8: in a run that reaches the push stage (commit succeeded), the
branch is pushed with `--set-upstream origin <branch>`; a push failure is
only warned about: the run still exits with status 0 and, when a token is
present and the remote URL matched, still proceeds to the PR stage. -/
theorem run_push_policy (env : RunEnv) (hash : String)
    (hrev : env.revparseShortHead = .ok hash)
    (hwa : env.writeAnalysisFails = false)
    (hwp : env.writePatchFails = false)
    (hadd : env.addResult = .ok ())
    (hcommit : env.commitResult = .ok ()) :
    (runModel env).pushArgs = some ["--set-upstream", "origin", "auto-fix/" ++ jsTrim hash] ∧
    (∀ e, env.pushResult = .error e → (runModel env).pushWarned = true) ∧
    (runModel env).exitCode = 0 ∧
    (∀ ownerRepo,
      envTruthy (if envTruthy env.githubToken then env.githubToken else env.ghToken) = true →
      env.remoteMatch (jsTrim (env.remoteGetUrl.getD "")) = some ownerRepo →
      (runModel env).prAttempted = true) := by
  have hrm := runModel_reached env hash hrev hwa hwp
  have haf := afterArtifacts_ok_fields env (runAnalysis env)
      ("auto-fix/" ++ jsTrim hash) (patchToWrite (runAnalysis env).result) hadd hcommit
  rw [hrm, haf]
  refine ⟨rfl, ?_, rfl, ?_⟩
  · intro e he
    simp [he]
  · intro ownerRepo ht hm
    simp [prBodyIfCreated, ht, hm]

/-- Witness for C8: push rejected, everything else fine, token present. -/
theorem run_push_policy_witness :
    (runModel { okRunEnv with
        githubToken := some "ghp-token",
        pushResult := .error "remote: Permission denied" }).pushWarned = true ∧
    (runModel { okRunEnv with
        githubToken := some "ghp-token",
        pushResult := .error "remote: Permission denied" }).exitCode = 0 ∧
    (runModel { okRunEnv with
        githubToken := some "ghp-token",
        pushResult := .error "remote: Permission denied" }).prAttempted = true := by
  have h := run_push_policy
    { okRunEnv with
      githubToken := some "ghp-token",
      pushResult := .error "remote: Permission denied" }
    "abc1234\n" rfl rfl rfl rfl rfl
  exact ⟨h.2.1 "remote: Permission denied" rfl, h.2.2.1,
         h.2.2.2 ("talhabektas", "test") rfl rfl⟩

/-- A non-string (or absent) `Patch` field never passes the
`typeof analysis.Patch === 'string'` guard. -/
theorem patchToWrite_of_nonstring (v : JsVal)
    (h : patchFieldIsString v = false) :
    patchToWrite v = none := by
  unfold patchFieldIsString at h
  unfold patchToWrite
  cases hf : v.getField "Patch" with
  | none => rfl
  | some w =>
      rw [hf] at h
      cases w <;> first | rfl | exact absurd h (by simp)

/-- C9: for every analysis result whose `Patch` field is absent or not a
string — for example a JSON number or object surviving the pass-through
branch — the string-`typeof` guard rejects it: the patch-writing step is
total (the model never needs a `.trim()` on a non-string) and writes no
patch file. -/
theorem run_nonstring_patch_no_write (env : RunEnv) (hash : String)
    (hrev : env.revparseShortHead = .ok hash)
    (hwa : env.writeAnalysisFails = false)
    (hwp : env.writePatchFails = false)
    (hns : patchFieldIsString (runAnalysis env).result = false) :
    patchToWrite (runAnalysis env).result = none ∧
    (runModel env).patchFileContents = none := by
  have hp := patchToWrite_of_nonstring _ hns
  refine ⟨hp, ?_⟩
  rw [runModel_reached env hash hrev hwa hwp, hp]
  unfold afterArtifacts
  cases hadd : env.addResult <;> cases hcommit : env.commitResult <;> simp [baseOutcome]

/-- Witness for C9: a passed-through analysis whose `Patch` is the JSON
number `5`. -/
theorem run_nonstring_patch_no_write_witness :
    (runModel { okRunEnv with
        openaiKey := some "sk-test",
        parseContent := fun _ => some (.obj [("Patch", .num 5)]) }).patchFileContents =
      none := by
  have h := run_nonstring_patch_no_write
    { okRunEnv with
      openaiKey := some "sk-test",
      parseContent := fun _ => some (.obj [("Patch", .num 5)]) }
    "abc1234\n" rfl rfl rfl (by decide)
  exact h.2

/-- C10: for every analysis result — including pass-through values with
missing or falsy fields — the PR body line array always contains the four
fixed section headers; an absent `RootCauseExplanation`,
`TestSuggestions` or `RiskAssessment` is replaced by the fixed
placeholders; and the patch section is always one of two fixed strings,
never the `Patch` text itself: it references `suggested_patch.diff`
exactly when the `Patch` value looks like a unified diff. -/
theorem prBody_structure (j : JsVal) :
    "## Kök neden" ∈ buildPrBodyLines j ∧
    "## Önerilen Patch" ∈ buildPrBodyLines j ∧
    "## Test Önerileri" ∈ buildPrBodyLines j ∧
    "## Risk Değerlendirmesi" ∈ buildPrBodyLines j ∧
    (j.getField "RootCauseExplanation" = none →
      (buildPrBodyLines j).get? 3 = some "Belirlenemedi") ∧
    (j.getField "TestSuggestions" = none →
      (buildPrBodyLines j).get? 9 = some "Belirtilmedi") ∧
    (j.getField "RiskAssessment" = none →
      (buildPrBodyLines j).get? 12 = some "Belirtilmedi") ∧
    ((buildPrBodyLines j).get? 6 = some patchRefText ∨
     (buildPrBodyLines j).get? 6 = some patchMissingText) ∧
    ((buildPrBodyLines j).get? 6 = some patchRefText ↔
      isLikelyUnifiedDiffJ (j.getField "Patch") = true) ∧
    buildPrBody j = String.intercalate "\n" (buildPrBodyLines j) := by
  refine ⟨?_, ?_, ?_, ?_, ?_, ?_, ?_, ?_, ⟨?_, ?_⟩, rfl⟩
  · simp [buildPrBodyLines]
  · simp [buildPrBodyLines]
  · simp [buildPrBodyLines]
  · simp [buildPrBodyLines]
  · intro h
    show some (JsVal.jsToString (prField j "RootCauseExplanation" "Belirlenemedi")) =
      some "Belirlenemedi"
    unfold prField
    rw [h]
    rfl
  · intro h
    show some (JsVal.jsToString (prField j "TestSuggestions" "Belirtilmedi")) =
      some "Belirtilmedi"
    unfold prField
    rw [h]
    rfl
  · intro h
    show some (JsVal.jsToString (prField j "RiskAssessment" "Belirtilmedi")) =
      some "Belirtilmedi"
    unfold prField
    rw [h]
    rfl
  · cases hd : isLikelyUnifiedDiffJ (j.getField "Patch") with
    | false =>
        right
        show some (patchLine j) = some patchMissingText
        simp [patchLine, hd]
    | true =>
        left
        show some (patchLine j) = some patchRefText
        simp [patchLine, hd]
  · intro h
    cases hd : isLikelyUnifiedDiffJ (j.getField "Patch") with
    | true => rfl
    | false =>
        have h6 : some (patchLine j) = some patchRefText := h
        rw [show patchLine j = patchMissingText by simp [patchLine, hd]] at h6
        exact absurd (Option.some.inj h6) (by decide)
  · intro hd
    show some (patchLine j) = some patchRefText
    simp [patchLine, hd]

/-- Witness for C10 at the empty object, where every field is absent. -/
theorem prBody_structure_witness :
    "## Kök neden" ∈ buildPrBodyLines (.obj []) ∧
    (buildPrBodyLines (.obj [])).get? 3 = some "Belirlenemedi" ∧
    (buildPrBodyLines (.obj [])).get? 12 = some "Belirtilmedi" ∧
    (buildPrBodyLines (.obj [])).get? 6 = some patchMissingText := by
  obtain ⟨h1, _, _, _, h5, _, h7, h8, h9, _⟩ := prBody_structure (.obj [])
  refine ⟨h1, h5 rfl, h7 rfl, ?_⟩
  rcases h8 with h | h
  · exact absurd (h9.mp h) (by decide)
  · exact h

/-- Witness instantiating the amended C4 exit-status characterization at
an all-success environment. -/
theorem run_exit_status_eq_witness :
    (runModel okRunEnv).exitCode = 0 := by
  rw [run_exit_status_eq]
  decide
